import Mathlib

/-!
Verification of the blockstack-cli client core against its specification.

The development shallowly embeds the Python sources under
`src/blockstack_client/` (`actions.py`, `config.py`, `utils.py`).  Python
dicts that flow to the caller are modelled as association lists of
string-keyed values (`Dict`); external collaborators that live outside the
embedded sources (the RPC proxy, the UTXO client, the zone-file parser
library, the wallet backend) are modelled as oracle fields of an explicit
environment record (`Env`), so every embedded function is a pure function
of its environment and arguments.  Functions that can raise an uncaught
Python exception return `Except String _`, with `Except.error` carrying the
exception class.
-/

namespace Blockstack

/-- A Python value as it appears in the dict-shaped results of the client:
strings, booleans, integers, `None`, lists of strings (warning lists), and
name-history objects (mappings from block height to a history entry). -/
inductive Val where
  | s (v : String)
  | b (v : Bool)
  | i (v : Int)
  | pynone
  | strlist (vs : List String)
  | hist (h : List (Nat × (Option String × Option String × Option String)))
  deriving DecidableEq, Repr

/-- A Python dict with string keys, as an association list in insertion
order. -/
abbrev Dict := List (String × Val)

/-- Membership test for a key, modelling the Python expression
`k in d`. -/
def Dict.hasKey (d : Dict) (k : String) : Bool :=
  d.any (fun p => p.1 == k)

/-- Key lookup, modelling `d.get(k)`: the value when present. -/
def Dict.get (d : Dict) (k : String) : Option Val :=
  (d.find? (fun p => p.1 == k)).map Prod.snd

theorem Dict.hasKey_nil_eq (q : String) : Dict.hasKey [] q = false := rfl

theorem Dict.hasKey_cons_eq (k : String) (v : Val) (d : Dict) (q : String) :
    Dict.hasKey ((k, v) :: d) q = ((k == q) || Dict.hasKey d q) := by
  simp [Dict.hasKey]

theorem Dict.get_nil_eq (q : String) : Dict.get [] q = none := rfl

theorem Dict.get_cons_eq (k : String) (v : Val) (d : Dict) (q : String) :
    Dict.get ((k, v) :: d) q = (if k == q then some v else Dict.get d q) := by
  unfold Dict.get
  cases h : k == q <;> simp [List.find?, h]

/-- Python truthiness of a value, used by tests such as
`resp.get('revoked', False)` and `resp['success']`. -/
def Val.truthy : Val → Bool
  | .s v => v != ""
  | .b v => v
  | .i v => v != 0
  | .pynone => false
  | .strlist vs => !vs.isEmpty
  | .hist h => !h.isEmpty

/-- From `config.py`: the per-address name cap.  Never changes. -/
def MAXIMUM_NAMES_PER_ADDRESS : Nat := 25

/-- From `config.py`: the opcode of a NAME_UPDATE operation. -/
def NAME_UPDATE : String := "+"

/-- The four approximate-transaction shapes whose fixed byte lengths
(`APPROX_PREORDER_TX_LEN` and friends, imported from `.constants`, which is
outside `src/`) parameterise the fallback fee heuristic `get_tx_fee`. -/
inductive TxApprox where
  | preorder
  | register
  | update
  | transfer
  deriving DecidableEq, Repr

/-- One entry of the durable operation queue, as read back by
`queuedb_find` and `extract_entry`: the queue type, the name, the optional
transaction hash and the optional zonefile payload. -/
structure QueueEntry where
  kind : String
  fqu : String
  tx_hash : Option String
  zonefile : Option String
  deriving DecidableEq, Repr

/-- One entry of a name record history, as consumed by
`cli_sync_zonefile`: the operation opcode, the value hash and the txid,
each optional because the code reads them with `.get(..., None)`. -/
structure HistItem where
  op : Option String
  value_hash : Option String
  txid : Option String
  deriving DecidableEq, Repr

/-- The current on-chain record of a name, as consumed by
`cli_sync_zonefile`.  `config.py` (`NAMEREC_FIELDS`) fixes `op`, `txid` and
`value_hash` as fields of every name record; `value_hash` is nullable.
The history maps block heights to history entries; heights are numeric per
the data model of the spec (the record itself is produced by the proxy
module, which is outside `src/`). -/
structure NameRec where
  op : String
  value_hash : Option String
  txid : String
  history : List (Nat × HistItem)
  deriving DecidableEq, Repr

/-- Outcome of `get_name_cost`, called by `get_total_registration_fees`:
a raised exception, an error reply, or a price in satoshis. -/
inductive NameCostRes where
  | exn
  | err (e : String)
  | ok (satoshis : Int)
  deriving DecidableEq, Repr

/-- Abstract form of a zone file parsed by the external `blockstack_zones`
library: the `$origin` value when present, the `$ttl` value when present
(`some (some n)` when `int()` of it yields `n`, `some none` when `int()`
raises), and an opaque residue distinguishing distinct parses. -/
structure PyZone where
  origin : Option String
  ttl : Option (Option Int)
  content : String
  deriving DecidableEq, Repr

/-- Outcome of one `get_wallet` attempt inside `get_wallet_with_backoff`:
a wallet dict, an `IOError`/`OSError` with `errno == ECONNREFUSED`, or any
other `IOError`/`OSError` (re-raised). -/
inductive FetchOutcome where
  | ok (w : Dict)
  | connRefused
  | ioErr (msg : String)
  deriving DecidableEq, Repr

/-- Result of `get_name_zonefile` as used by `cli_migrate`: `None`, an
error reply, or a reply carrying the name record value hash and the raw
zonefile text. -/
inductive MigrateZonefileRes where
  | noneRes
  | errRes
  | okRes (name_rec_value_hash : Option String) (zonefile_txt : String)
  deriving DecidableEq, Repr

/-- The environment of external collaborators.  Every field models the
reply of one function imported from outside the embedded sources (the
proxy, the wallet, the UTXO client, the zone-file library, the local RPC
daemon), plus the local queue state. -/
structure Env where
  /-- From `.scripts` (outside src/): overall name validity. -/
  is_name_valid : String → Bool
  /-- From `.b40` (outside src/): base-40 character check. -/
  is_b40 : String → Bool
  /-- From the proxy (outside src/): the name is registered. -/
  is_name_registered : String → Bool
  /-- From the proxy (outside src/): the name is owned by the address. -/
  is_name_owner : String → String → Bool
  /-- Payment address read from the wallet file. -/
  payment_address : String
  /-- Owner address read from the wallet file. -/
  owner_address : String
  /-- Live preorder tx fee estimate; `none` models estimator failure. -/
  estimate_preorder_tx_fee : Option Int
  /-- Live register tx fee estimate; `none` models estimator failure. -/
  estimate_register_tx_fee : Option Int
  /-- Live update tx fee estimate; `none` models estimator failure. -/
  estimate_update_tx_fee : Option Int
  /-- Live transfer tx fee estimate; `none` models estimator failure. -/
  estimate_transfer_tx_fee : Option Int
  /-- Fallback fee from the fixed per-operation byte-length heuristic:
  `get_tx_fee('00' * APPROX_<kind>_TX_LEN)`.  `none` models failure. -/
  get_tx_fee : TxApprox → Option Int
  /-- Balance of an address; `none` models failure. -/
  get_balance : String → Option Int
  /-- Whether the address has no unconfirmed transactions outstanding. -/
  is_address_usable : String → Bool
  /-- Whether `is_b58check_address` accepts the string (no exception). -/
  is_b58check : String → Bool
  /-- How many names an address currently owns (feeds the spec-modelled
  `can_receive_name`). -/
  names_owned : String → Nat
  /-- Whether `get_name_cost` raised, errored, or returned a price. -/
  get_name_cost : NameCostRes
  /-- Whether the UTXO provider raised `UTXOException` during the fee
  estimation block of `get_total_registration_fees`. -/
  utxo_exception : Bool
  /-- Reply of `wallet_ensure_exists`. -/
  wallet_ensure_exists : Dict
  /-- Reply of `start_rpc_endpoint`. -/
  start_rpc_endpoint : Dict
  /-- Reply of `get_wallet_keys` (wallet keys, or an error dict). -/
  get_wallet_keys : Dict
  /-- Reply of `rpc.backend_update`; `Except.error` models a raised
  exception during the call. -/
  backend_update : Except String Dict
  /-- Reply of `rpc.backend_transfer`. -/
  backend_transfer : Except String Dict
  /-- Reply of `rpc.backend_revoke`. -/
  backend_revoke : Except String Dict
  /-- Reply of `rpc.backend_migrate`. -/
  backend_migrate : Except String Dict
  /-- Effect of a processed backend RPC on the durable queue, keyed by the
  operation kind.  Arbitrary: the daemon owns the queue. -/
  backend_queue_effect : String → List QueueEntry → List QueueEntry
  /-- The durable operation queue before the call. -/
  queue : List QueueEntry
  /-- Reply of `getinfo()`. -/
  getinfo : Dict
  /-- Reply of `get_consensus_at(h)`. -/
  get_consensus_at : Int → Val
  /-- Result of `json.loads` on a payload, when it parses. -/
  json_loads_zone : String → Option PyZone
  /-- Result of `blockstack_zones.parse_zone_file`, when it parses. -/
  parse_zone_file : String → Option PyZone
  /-- Result of `blockstack_zones.make_zone_file`, when it serializes. -/
  make_zone_file : PyZone → Option String
  /-- From `user.py` (outside src/): minimum URI/TXT record shape check. -/
  is_user_zonefile : PyZone → Bool
  /-- RIPEMD160(SHA256(data)) of serialized zonefile data
  (`storage.get_zonefile_data_hash`, outside src/). -/
  get_zonefile_data_hash : String → String
  /-- The current on-chain value hash of a name (nullable), feeding the
  spec-modelled `is_zonefile_current`. -/
  name_value_hash : String → Option String
  /-- Whether `prompt_invalid_zonefile()` answers yes. -/
  prompt_invalid_zonefile : Bool
  /-- Whether `os.path.exists` holds of a path string. -/
  path_exists : String → Bool
  /-- Contents of a readable file; `none` models a read failure. -/
  read_file : String → Option String
  /-- Reply of `get_name_zonefile(fqu, ..., raw_zonefile=True)` in
  `cli_update` when no data argument is given. -/
  update_get_name_zonefile : Option Dict
  /-- Reply of `get_name_zonefile` in `cli_migrate`. -/
  migrate_zonefile : MigrateZonefileRes
  /-- From `blockstack_profiles` (outside src/): legacy profile check. -/
  is_profile_in_legacy_format : PyZone → Bool
  /-- Whether the interactive migrate prompt answers yes. -/
  migrate_prompt : Bool
  /-- Whether the interactive revoke confirmation answers `y`. -/
  revoke_confirm : Bool
  /-- Reply of `get_name_blockchain_record` for `cli_lookup`/`cli_whois`;
  `Except.error` models a raised `socket_error`. -/
  get_name_blockchain_record : Except Unit Dict
  /-- Outcome of `get_name_profile` in `cli_lookup`: `none` models a
  raised exception, `some (Sum.inl d)` a zonefile error dict, and
  `some (Sum.inr (p, zf))` a profile and a raw zonefile. -/
  lookup_profile : Option (Dict ⊕ (Val × Val))
  /-- Per-attempt outcome of `get_wallet` inside
  `get_wallet_with_backoff`. -/
  wallet_fetch : Nat → FetchOutcome
  /-- Result of `queuedb_find('update', name, path=queue_path)` in
  `cli_sync_zonefile`. -/
  sync_queue : List QueueEntry
  /-- Reply of `get_name_zonefile(name, raw_zonefile=True)` in
  `cli_sync_zonefile`; `none` models a `None` reply. -/
  sync_get_name_zonefile : Option Dict
  /-- Name record fetched by `cli_sync_zonefile`; `none` models an error
  reply from `get_name_blockchain_record`. -/
  sync_name_rec : Option NameRec
  /-- Reply of `zonefile_data_replicate`. -/
  replicate_result : Dict

/-- From `actions.py` `check_valid_name`: verify that a name is valid,
returning `none` on success and an error string otherwise. -/
def check_valid_name (env : Env) (fqu : String) : Option String :=
  if env.is_name_valid fqu then
    none
  else if !(fqu.contains '.') then
    some ("The name specified is invalid. " ++
      "Names must end with a period followed by a valid TLD.")
  else if ((fqu.splitOn ".").headD "") == "" then
    some ("The name specified is invalid. " ++
      "Names must be at least one character long, not including the TLD.")
  else if !(env.is_b40 ((fqu.splitOn ".").headD "")) then
    some ("The name specified is invalid. " ++
      "Names may only contain alphanumeric characters, " ++
      "dashes, and underscores.")
  else
    some "The name is invalid"

/-- Modelled from the spec: `can_receive_name` is imported from
`backend.blockchain`, which is not under `src/`.  Spec 4.1: for transfer,
the destination address must not already own more than the configured
per-address name cap (`MAXIMUM_NAMES_PER_ADDRESS`, default 25), and the
spec scenario rejects an address that owns exactly the cap. -/
def can_receive_name (env : Env) (address : String) : Bool :=
  env.names_owned address < MAXIMUM_NAMES_PER_ADDRESS

/-- From `actions.py` `operation_sanity_check`: preconditions shared by
update, transfer, renew and revoke.  `transfer_address` is `some a` for a
transfer.  Returns `{'status': True}` on success and `{'error': ...}`
otherwise. -/
def operation_sanity_check (env : Env) (fqu : String)
    (transfer_address : Option String) : Dict :=
  if !env.is_name_registered fqu then
    [("error", .s (fqu ++ " is not registered yet."))]
  else if !env.is_name_owner fqu env.owner_address then
    [("error", .s (fqu ++ " is not in your possession."))]
  else
    let est : Option Int :=
      match transfer_address with
      | some _ => env.estimate_transfer_tx_fee
      | none => env.estimate_update_tx_fee
    let approx : TxApprox :=
      match transfer_address with
      | some _ => TxApprox.transfer
      | none => TxApprox.update
    let tx_fee : Option Int :=
      match est with
      | some f => some f
      | none => env.get_tx_fee approx
    match tx_fee with
    | none => [("error", .s "Failed to get fee estimate")]
    | some fee =>
      match env.get_balance env.payment_address with
      | none => [("error", .s "Failed to get balance")]
      | some balance =>
        if balance < fee then
          [("error", .s ("Address " ++ env.payment_address ++
            " does not have a sufficient balance (need " ++
            toString balance ++ ")."))]
        else if !env.is_address_usable env.payment_address then
          [("error", .s ("Address " ++ env.payment_address ++
            " has insufficiently confirmed transactions. Wait and try later."))]
        else
          match transfer_address with
          | none => [("status", .b true)]
          | some address =>
            if !env.is_b58check address then
              [("error", .s ("Address " ++ address ++
                " is not a valid Bitcoin address."))]
            else if !can_receive_name env address then
              [("error", .s ("Address " ++ address ++
                " owns too many names already."))]
            else
              [("status", .b true)]

/-- Modelled from the spec: `is_zonefile_current` is imported from the
proxy package, which is not under `src/`.  Spec 8.1 and 8.6: a zonefile is
current exactly when its computed hash (RIPEMD160(SHA256(serialized
bytes))) equals the name record `value_hash`. -/
def is_zonefile_current (env : Env) (fqu : String) (user_data : PyZone) : Bool :=
  match env.make_zone_file user_data with
  | some txt => env.name_value_hash fqu == some (env.get_zonefile_data_hash txt)
  | none => false

/-- Parse step of `load_zonefile`: try the payload as serialized JSON
first, then as zone-file text. -/
def zonefile_parsed (env : Env) (zonefile_data : String) : Option PyZone :=
  match env.json_loads_zone zonefile_data with
  | some d => some d
  | none => env.parse_zone_file zonefile_data

/-- From `actions.py` `load_zonefile`: load a zonefile from a string
(JSON, then zone-file text), verify it is well-formed and, when
`check_current`, that it differs from the current zonefile.  Returns
`{'status': True, 'zonefile': serialized}` on success,
`{'error': ..., 'identical': True, 'zonefile': serialized}` when the
zonefile is identical, and `{'error': ...}` otherwise. -/
def load_zonefile (env : Env) (fqu : String) (zonefile_data : String)
    (check_current : Bool) : Dict :=
  match zonefile_parsed env zonefile_data with
  | none => [("error", .s "Zonefile data is invalid.")]
  | some user_data =>
    match env.make_zone_file user_data with
    | none => [("error", .s "Invalid zonefile")]
    | some user_zonefile =>
      if fqu != user_data.origin.getD "" then
        [("error", .s "Invalid $origin; must use your name")]
      else if user_data.ttl.isNone then
        [("error", .s "Missing $ttl; please supply a positive integer")]
      else if !env.is_user_zonefile user_data then
        [("error", .s "Zonefile is missing or has invalid URI and/or TXT records")]
      else
        match user_data.ttl with
        | some (some ttl) =>
          if ttl < 0 then
            [("error", .s "Invalid $ttl; must be a positive integer")]
          else if check_current && is_zonefile_current env fqu user_data then
            [("error", .s "Zonefile data is same as current zonefile; update not needed."),
             ("identical", .b true),
             ("zonefile", .s user_zonefile)]
          else
            [("status", .b true), ("zonefile", .s user_zonefile)]
        | _ => [("error", .s "Invalid $ttl; must be a positive integer")]

/-- Per-operation fee selection inside `get_total_registration_fees`: the
live estimate when present, else the fixed byte-length fallback
`get_tx_fee('00' * APPROX_<kind>_TX_LEN)`; the flag records that the
fallback was used (`insufficient_funds` in the source). -/
def fee_pick (env : Env) (est : Option Int) (approx : TxApprox) :
    Option Int × Bool :=
  match est with
  | some f => (some f, false)
  | none => (env.get_tx_fee approx, true)

/-- From `actions.py` `get_total_registration_fees`: name price plus the
preorder, register and update transaction fees, with the fixed-size
heuristic as fallback for each failed live estimate.  `payment_privkey`
and `owner_privkey` record whether the respective private key info is
available (`is not None`).  `Except.error` models an uncaught Python
exception (`int(None)` raises `TypeError` when a fallback fee is also
unavailable). -/
def get_total_registration_fees (env : Env)
    (payment_privkey owner_privkey : Bool) : Except String Dict :=
  match env.get_name_cost with
  | .exn => .ok [("error", .s "Could not connect to server")]
  | .err e => .ok [("error", .s ("Could not determine price of name: " ++ e))]
  | .ok satoshis =>
    if env.utxo_exception then
      .ok [("error", .s "Failed to query UTXO provider.  Please try again.")]
    else
      let pre := fee_pick env env.estimate_preorder_tx_fee TxApprox.preorder
      let reg := fee_pick env env.estimate_register_tx_fee TxApprox.register
      let upd := fee_pick env env.estimate_update_tx_fee TxApprox.update
      let insufficient_funds := pre.2 || reg.2 || upd.2
      match pre.1, reg.1, upd.1 with
      | some p, some r, some u =>
        let base : Dict :=
          [("name_price", .i satoshis),
           ("preorder_tx_fee", .i p),
           ("register_tx_fee", .i r),
           ("update_tx_fee", .i u),
           ("total_estimated_cost", .i (satoshis + p + r + u))]
        let warnings1 : List String :=
          if insufficient_funds && payment_privkey then
            ["Insufficient funds; fees are rough estimates."]
          else []
        let warnings2 : List String :=
          if !payment_privkey then
            warnings1 ++ ["Wallet not accessed; fees are rough estimates."]
          else warnings1
        .ok (base ++ (if warnings2.isEmpty then [] else [("warnings", .strlist warnings2)]))
      | _, _, _ => .error "TypeError: int() argument must not be None"

/-- Result of `get_wallet_with_backoff`: the returned value (`Except.ok
(some w)` a wallet dict, `Except.ok none` the Python value `None`,
`Except.error` a re-raised exception), and the sleeps performed between
attempts. -/
structure BackoffRes where
  result : Except String (Option Dict)
  sleeps : List Nat
  deriving Repr

/-- From `actions.py` `get_wallet_with_backoff`: try `get_wallet` up to
three times (`for i in range(3)`), sleeping `i + 1` seconds after a
connection-refused failure; any other `IOError`/`OSError` is re-raised.
After three connection-refused failures the loop index `i` is `2`, so the
guard `if i == 3` never fires and the function returns the initial value
`None`. -/
def get_wallet_with_backoff (fetch : Nat → FetchOutcome) : BackoffRes :=
  match fetch 0 with
  | .ok w => ⟨.ok (some w), []⟩
  | .ioErr m => ⟨.error m, []⟩
  | .connRefused =>
    match fetch 1 with
    | .ok w => ⟨.ok (some w), [1]⟩
    | .ioErr m => ⟨.error m, [1]⟩
    | .connRefused =>
      match fetch 2 with
      | .ok w => ⟨.ok (some w), [1, 2]⟩
      | .ioErr m => ⟨.error m, [1, 2]⟩
      | .connRefused => ⟨.ok none, [1, 2, 3]⟩

/-- Observable outcome of a mutating cli operation: the returned value
(`Except.error` models an uncaught Python exception), the backend RPC
methods invoked, and the durable queue after the call. -/
structure Outcome where
  result : Except String Dict
  backend_calls : List String
  queue : List QueueEntry
  deriving Repr

/-- Shared tail of the mutating cli operations: issue the backend RPC and
shape its reply.  A raised exception maps to `{'error': 'Error talking to
server, try again.'}`; a truthy `success` or an `error` key returns the
reply; a `message` key becomes an error; otherwise control falls through
to `return result`, whose effect is given by `fallthrough` (`result` is
unbound in `cli_update`, `cli_transfer`, `cli_migrate` and
`cli_set_zonefile_hash`, raising `NameError`; `cli_revoke` initializes
`result = {}`). -/
def backend_rpc_result (resp : Except String Dict)
    (fallthrough : Except String Dict) : Except String Dict :=
  match resp with
  | .error _ => .ok [("error", .s "Error talking to server, try again.")]
  | .ok r =>
    if (r.get "success").any Val.truthy then .ok r
    else if r.hasKey "error" then .ok r
    else
      match r.get "message" with
      | some m => .ok [("error", m)]
      | none => fallthrough

/-- Queue state after a backend RPC named `kind` was issued: the daemon
may apply its effect. -/
def queue_after (env : Env) (kind : String) : List QueueEntry :=
  env.backend_queue_effect kind env.queue

/-- From `actions.py` `is_valid_path`: a string is a valid path when it
has no NUL byte. -/
def is_valid_path (path : String) : Bool :=
  !(path.toList.any (fun c => c == Char.ofNat 0))

/-- Python `str(x)` on an optional string, mapping `None` to `"None"`
(as happens when `cli_update` loads a zonefile that was never fetched). -/
def pystr (o : Option String) : String :=
  o.getD "None"

/-- From `actions.py` `cli_update`: set the zone file for a name.
`data` is the optional zone file string or path; `interactive` as in the
source.  The identical-zonefile case returns a fresh error dict without
the `identical` flag of `load_zonefile`.  The final `return result` on an
unrecognized backend reply raises `NameError` (`result` is unbound), as
does the reference to the undefined `allow_invalid_zonefile` in the
non-interactive invalid path. -/
def cli_update (env : Env) (name : String) (data : Option String)
    (interactive : Bool) : Outcome :=
  if !interactive && data.isNone then
    ⟨.ok [("error", .s "Zone file data required in non-interactive mode")], [], env.queue⟩
  else if env.wallet_ensure_exists.hasKey "error" then
    ⟨.ok env.wallet_ensure_exists, [], env.queue⟩
  else if env.start_rpc_endpoint.hasKey "error" then
    ⟨.ok env.start_rpc_endpoint, [], env.queue⟩
  else
    match check_valid_name env name with
    | some e => ⟨.ok [("error", .s e)], [], env.queue⟩
    | none =>
      let read_attempt : Except String (Option String) :=
        match data with
        | some d =>
          if is_valid_path d && env.path_exists d then
            match env.read_file d with
            | some contents => .ok (some contents)
            | none => .error d
          else .ok (some d)
        | none => .ok none
      match read_attempt with
      | .error d => ⟨.ok [("error", .s ("Failed to read \"" ++ d ++ "\""))], [], env.queue⟩
      | .ok zonefile_data0 =>
        if env.get_wallet_keys.hasKey "error" then
          ⟨.ok env.get_wallet_keys, [], env.queue⟩
        else
          let zonefile_data : Option String :=
            match zonefile_data0 with
            | some d => some d
            | none =>
              match env.update_get_name_zonefile with
              | none => none
              | some res =>
                if res.hasKey "error" then none
                else
                  match res.get "zonefile" with
                  | some (.s z) => some z
                  | _ => none
          let user_data_res := load_zonefile env name (pystr zonefile_data) true
          let proceed :
              Except (Except String Dict) (Option String × Option String) :=
            if !(user_data_res.hasKey "error") then
              match user_data_res.get "zonefile" with
              | some (.s txt) =>
                .ok (some txt, some (env.get_zonefile_data_hash txt))
              | _ => .error (.error "KeyError: zonefile")
            else if user_data_res.hasKey "identical" then
              .error (.ok [("error", .s "Zonefile matches the current name hash; not updating.")])
            else if !interactive then
              match zonefile_data with
              | none => .error (.ok [("error", .s "Zone file not updated (invalid)")])
              | some _ => .error (.error "NameError: allow_invalid_zonefile")
            else if zonefile_data.isSome && !env.prompt_invalid_zonefile then
              let reason :=
                match user_data_res.get "error" with
                | some (.s e) => e
                | _ => ""
              .error (.ok [("error", .s ("Zone file not updated (reason: " ++ reason ++ ")"))])
            else
              .ok (zonefile_data, zonefile_data.map env.get_zonefile_data_hash)
          match proceed with
          | .error out => ⟨out, [], env.queue⟩
          | .ok (_user_data_txt, _user_data_hash) =>
            if !(env.get_wallet_keys.hasKey "data_pubkey") then
              ⟨.error "KeyError: data_pubkey", [], env.queue⟩
            else if !(env.get_wallet_keys.hasKey "payment_privkey") ||
                !(env.get_wallet_keys.hasKey "owner_privkey") then
              ⟨.error "KeyError: privkey", [], env.queue⟩
            else
              let res := operation_sanity_check env name none
              if res.hasKey "error" then
                ⟨.ok res, [], env.queue⟩
              else
                ⟨backend_rpc_result env.backend_update (.error "NameError: result"),
                 ["update"], queue_after env "update"⟩

/-- From `actions.py` `cli_transfer`: transfer a name to a new address.
The wallet is loaded twice in the source; both loads are the same oracle
reply. -/
def cli_transfer (env : Env) (name address : String) : Outcome :=
  if env.wallet_ensure_exists.hasKey "error" then
    ⟨.ok env.wallet_ensure_exists, [], env.queue⟩
  else if env.start_rpc_endpoint.hasKey "error" then
    ⟨.ok env.start_rpc_endpoint, [], env.queue⟩
  else if env.get_wallet_keys.hasKey "error" then
    ⟨.ok env.get_wallet_keys, [], env.queue⟩
  else
    match check_valid_name env name with
    | some e => ⟨.ok [("error", .s e)], [], env.queue⟩
    | none =>
      if env.get_wallet_keys.hasKey "error" then
        ⟨.ok env.get_wallet_keys, [], env.queue⟩
      else if !(env.get_wallet_keys.hasKey "payment_privkey") ||
          !(env.get_wallet_keys.hasKey "owner_privkey") then
        ⟨.error "KeyError: privkey", [], env.queue⟩
      else
        let res := operation_sanity_check env name (some address)
        if res.hasKey "error" then
          ⟨.ok res, [], env.queue⟩
        else
          ⟨backend_rpc_result env.backend_transfer (.error "NameError: result"),
           ["transfer"], queue_after env "transfer"⟩

/-- From `actions.py` `cli_revoke`: revoke a name.  The interactive
confirmation exits the process when declined (`SystemExit`); the
fall-through on an unrecognized backend reply returns the initial
`result = {}`. -/
def cli_revoke (env : Env) (name : String) (interactive : Bool) : Outcome :=
  if env.wallet_ensure_exists.hasKey "error" then
    ⟨.ok env.wallet_ensure_exists, [], env.queue⟩
  else if env.start_rpc_endpoint.hasKey "error" then
    ⟨.ok env.start_rpc_endpoint, [], env.queue⟩
  else
    match check_valid_name env name with
    | some e => ⟨.ok [("error", .s e)], [], env.queue⟩
    | none =>
      if !env.is_name_registered name then
        ⟨.ok [("error", .s (name ++ " does not exist."))], [], env.queue⟩
      else if env.get_wallet_keys.hasKey "error" then
        ⟨.ok env.get_wallet_keys, [], env.queue⟩
      else if !(env.get_wallet_keys.hasKey "owner_privkey") ||
          !(env.get_wallet_keys.hasKey "payment_privkey") then
        ⟨.error "KeyError: privkey", [], env.queue⟩
      else
        let res := operation_sanity_check env name none
        if res.hasKey "error" then
          ⟨.ok res, [], env.queue⟩
        else if interactive && !env.revoke_confirm then
          ⟨.error "SystemExit", [], env.queue⟩
        else
          ⟨backend_rpc_result env.backend_revoke (.ok []),
           ["revoke"], queue_after env "revoke"⟩

/-- From `actions.py` `cli_migrate`: migrate a name-linked profile to the
latest profile format.  When the zonefile fetch yields neither `None` nor
an error, the current zonefile is classified (legacy, non-standard or
current) before the backend call. -/
def cli_migrate (env : Env) (name : String) (interactive force : Bool) : Outcome :=
  if env.wallet_ensure_exists.hasKey "error" then
    ⟨.ok env.wallet_ensure_exists, [], env.queue⟩
  else
    match check_valid_name env name with
    | some e => ⟨.ok [("error", .s e)], [], env.queue⟩
    | none =>
      if env.start_rpc_endpoint.hasKey "error" then
        ⟨.ok env.start_rpc_endpoint, [], env.queue⟩
      else if env.get_wallet_keys.hasKey "error" then
        ⟨.ok env.get_wallet_keys, [], env.queue⟩
      else if !(env.get_wallet_keys.hasKey "owner_privkey") ||
          !(env.get_wallet_keys.hasKey "payment_privkey") then
        ⟨.error "KeyError: privkey", [], env.queue⟩
      else
        let res := operation_sanity_check env name none
        if res.hasKey "error" then
          ⟨.ok res, [], env.queue⟩
        else
          let classify : Option Dict :=
            match env.migrate_zonefile with
            | .noneRes => none
            | .errRes => none
            | .okRes rec_value_hash zonefile_txt =>
              let user_zonefile_hash := env.get_zonefile_data_hash zonefile_txt
              let parsed := env.parse_zone_file zonefile_txt
              let legacy :=
                match parsed with
                | some z => env.is_profile_in_legacy_format z
                | none => false
              let nonstandard := parsed.isNone
              let current := rec_value_hash.getD "" == user_zonefile_hash
              if nonstandard && !legacy then
                if interactive && !force then
                  if !env.migrate_prompt then
                    some [("error", .s "Non-standard zonefile")]
                  else none
                else if !force then
                  some [("error", .s "Non-standard zonefile")]
                else none
              else if !legacy && !force then
                if current then
                  some [("error", .s "Zonefile data is same as current zonefile; update not needed.")]
                else
                  some [("error", .s "Not a legacy profile; cannot migrate.")]
              else none
          match classify with
          | some errdict => ⟨.ok errdict, [], env.queue⟩
          | none =>
            ⟨backend_rpc_result env.backend_migrate (.error "NameError: result"),
             ["migrate"], queue_after env "migrate"⟩

/-- A hexadecimal character, as matched by the regular expression
`[a-fA-F0-9]` in `cli_set_zonefile_hash`. -/
def isHexChar (c : Char) : Bool :=
  c.isDigit || (('a' ≤ c) && (c ≤ 'f')) || (('A' ≤ c) && (c ≤ 'F'))

/-- From `actions.py` `cli_set_zonefile_hash`: directly set the zonefile
hash for a name.  The hash must be 40 hex characters. -/
def cli_set_zonefile_hash (env : Env) (name zonefile_hash : String) : Outcome :=
  if env.wallet_ensure_exists.hasKey "error" then
    ⟨.ok env.wallet_ensure_exists, [], env.queue⟩
  else if env.start_rpc_endpoint.hasKey "error" then
    ⟨.ok env.start_rpc_endpoint, [], env.queue⟩
  else
    match check_valid_name env name with
    | some e => ⟨.ok [("error", .s e)], [], env.queue⟩
    | none =>
      if !(zonefile_hash.toList.all isHexChar && zonefile_hash.length == 40) then
        ⟨.ok [("error", .s "Not a valid zonefile hash")], [], env.queue⟩
      else if env.get_wallet_keys.hasKey "error" then
        ⟨.ok env.get_wallet_keys, [], env.queue⟩
      else if !(env.get_wallet_keys.hasKey "owner_privkey") ||
          !(env.get_wallet_keys.hasKey "payment_privkey") then
        ⟨.error "KeyError: privkey", [], env.queue⟩
      else
        let res := operation_sanity_check env name none
        if res.hasKey "error" then
          ⟨.ok res, [], env.queue⟩
        else
          ⟨backend_rpc_result env.backend_update (.error "NameError: result"),
           ["update"], queue_after env "update"⟩

/-- From `actions.py` `cli_consensus`: get consensus information.  With no
block height, the code guards on the keys `last_block_processed` and
`consensus_hash` of the `getinfo` reply but then subscripts the misspelled
key `consensns_hash`, raising `KeyError` whenever that key is absent. -/
def cli_consensus (env : Env) (block_height : Option Int) : Except String Dict :=
  match block_height with
  | none =>
    let resp := env.getinfo
    if resp.hasKey "error" then .ok resp
    else if resp.hasKey "last_block_processed" && resp.hasKey "consensus_hash" then
      match resp.get "consensns_hash" with
      | some ch =>
        match resp.get "last_block_processed" with
        | some lbp => .ok [("consensus", ch), ("block_height", lbp)]
        | none => .error "KeyError: last_block_processed"
      | none => .error "KeyError: consensns_hash"
    else
      .ok [("error", .s "Server is indexing.  Try again shortly.")]
  | some h =>
    .ok [("consensus", env.get_consensus_at h), ("block_height", .i h)]

/-- An ASCII whitespace character, as stripped by Python `int()`. -/
def isSpaceChar (c : Char) : Bool :=
  c == ' ' || c == '\t' || c == '\n' || c == '\r' ||
    c == Char.ofNat 11 || c == Char.ofNat 12

/-- Decimal value of a nonempty all-digit character list. -/
def digitsVal (cs : List Char) : Option Nat :=
  if cs.isEmpty then none
  else if cs.all Char.isDigit then
    some (cs.foldl (fun acc c => acc * 10 + (c.toNat - Char.toNat '0')) 0)
  else none

/-- Python `int(s)` on an ASCII string: strip whitespace, accept an
optional sign followed by decimal digits. -/
def pyInt (s : String) : Option Int :=
  let t := ((s.toList.dropWhile isSpaceChar).reverse.dropWhile isSpaceChar).reverse
  match t with
  | '-' :: ds => (digitsVal ds).map (fun n => -(n : Int))
  | '+' :: ds => (digitsVal ds).map (fun n => (n : Int))
  | ds => (digitsVal ds).map (fun n => (n : Int))

/-- Python `s.split(',')` on the character list of a string. -/
def splitCommaChars : List Char → List (List Char)
  | [] => [[]]
  | c :: rest =>
    let r := splitCommaChars rest
    if c == ',' then [] :: r
    else
      match r with
      | g :: gs => (c :: g) :: gs
      | [] => [[c]]

/-- Python `s.split(',')`: the comma-separated fields of a string
(an empty string yields one empty field). -/
def splitComma (s : String) : List String :=
  (splitCommaChars s.toList).map (fun cs => String.mk cs)

/-- Bucket-exponent parsing loop of `cli_namespace_reveal`: each CSV field
must convert with `int()` and satisfy `0 <= v < 16`. -/
def parse_bucket_exponents : List String → Option (List Int)
  | [] => some []
  | f :: rest =>
    match pyInt f with
    | some v =>
      if 0 ≤ v && v < 16 then
        match parse_bucket_exponents rest with
        | some vs => some (v :: vs)
        | none => none
      else none
    | none => none

/-- Outcome of `cli_namespace_reveal`: the returned value and whether the
reveal call was reached.  Reaching the call raises `NameError`, because
`namespace_reveal` is not defined in `actions.py` (marked `# BUG:
undefined function` in the source). -/
structure RevealOutcome where
  result : Except String Dict
  reveal_attempted : Bool
  deriving Repr

/-- From `actions.py` `cli_namespace_reveal`: validate the
`bucket_exponents` CSV (exactly 16 fields, each an integer in `[0, 15]`)
before anything else touches the chain. -/
def cli_namespace_reveal (bucket_exponents : String) : RevealOutcome :=
  let fields := splitComma bucket_exponents
  if fields.length != 16 then
    ⟨.ok [("error", .s "`bucket_exponents` must be a 16-value CSV of integers")], false⟩
  else
    match parse_bucket_exponents fields with
    | none =>
      ⟨.ok [("error", .s "`bucket_exponents` must contain integers between 0 and 15, inclusively.")], false⟩
    | some _ =>
      ⟨.error "NameError: namespace_reveal", true⟩

/-- Insert into an ascending list (helper for Python `sorted`). -/
def insertAsc (n : Nat) : List Nat → List Nat
  | [] => [n]
  | m :: rest => if n ≤ m then n :: m :: rest else m :: insertAsc n rest

/-- Python `sorted` on a list of numeric keys (ascending). -/
def sortAsc : List Nat → List Nat
  | [] => []
  | n :: rest => insertAsc n (sortAsc rest)

/-- From `actions.py` `cli_lookup`: get the zone file and profile for a
name.  A revoked record short-circuits with an error before any profile
or zonefile data is fetched. -/
def cli_lookup (env : Env) (name : String) : Except String Dict :=
  match check_valid_name env name with
  | some e => .ok [("error", .s e)]
  | none =>
    match env.get_name_blockchain_record with
    | .error _ => .ok [("error", .s "Error connecting to server.")]
    | .ok record =>
      if record.hasKey "error" then .ok record
      else if !(record.hasKey "value_hash") then
        .ok [("error", .s (name ++ " has no profile"))]
      else if (record.get "revoked").any Val.truthy then
        .ok [("error", .s "Name is revoked. Use get_name_blockchain_record for details.")]
      else
        match env.lookup_profile with
        | none => .ok [("error", .s "Failed to look up name")]
        | some (.inl errdict) => .ok errdict
        | some (.inr (profile, raw_zonefile)) =>
          .ok [("profile", profile), ("zonefile", raw_zonefile)]

/-- From `actions.py` `cli_whois`: look up the blockchain info for a name.
A raised `socket_error` reaches `exit_with_error`, which terminates the
process (`SystemExit`); a revoked record short-circuits with an error
before any whois field is assembled. -/
def cli_whois (env : Env) (name : String) : Except String Dict :=
  match check_valid_name env name with
  | some e => .ok [("error", .s e)]
  | none =>
    match env.get_name_blockchain_record with
    | .error _ => .error "SystemExit"
    | .ok record =>
      if record.hasKey "error" then .ok record
      else if (record.get "revoked").any Val.truthy then
        .ok [("error", .s "Name is revoked. Use get_name_blockchain_record for details.")]
      else
        let history? : Option (List (Nat × (Option String × Option String × Option String))) :=
          match record.get "history" with
          | some (.hist h) => some h
          | none => some []
          | some _ => none
        match history? with
        | none => .ok [("error", .s "Invalid record data returned")]
        | some h =>
          let update_heights := sortAsc (h.map Prod.fst)
          match record.get "preorder_block_number", record.get "last_renewed",
              record.get "txid", record.get "address", record.get "sender" with
          | some pbn, some lr, some tx, some addr, some sender =>
            let base : Dict :=
              [("block_preordered_at", pbn), ("block_renewed_at", lr),
               ("last_transaction_id", tx), ("owner_address", addr),
               ("owner_script", sender)]
            let zfpart : Dict :=
              match record.get "value_hash" with
              | none => [("has_zonefile", .b false)]
              | some .pynone => [("has_zonefile", .b false)]
              | some (.s "null") => [("has_zonefile", .b false)]
              | some (.s "") => [("has_zonefile", .b false)]
              | some v => [("has_zonefile", .b true), ("zonefile_hash", v)]
            let heightpart : Dict :=
              match update_heights.getLast? with
              | some hh => [("last_transaction_height", .i (Int.ofNat hh))]
              | none => []
            let expirepart : Dict :=
              match record.get "expired_block" with
              | some .pynone => []
              | some v => [("expire_block", v)]
              | none => []
            .ok (base ++ zfpart ++ heightpart ++ expirepart)
          | _, _, _, _, _ => .error "KeyError"

/-- Queue scan at the top of the txid-resolution block of
`cli_sync_zonefile`: take the zonefile payload and `tx_hash` of the first
queued update entry that carries a zonefile. -/
def sync_queue_scan : List QueueEntry → Option (String × Option String)
  | [] => none
  | e :: rest =>
    match e.zonefile with
    | some zf => some (zf, e.tx_hash)
    | none => sync_queue_scan rest

/-- Lookup of a history entry by block height. -/
def lookupHist (hist : List (Nat × HistItem)) (k : Nat) : Option HistItem :=
  (hist.find? (fun p => p.1 == k)).map Prod.snd

/-- History walk of `cli_sync_zonefile`, over the given key order: skip
entries without an op, with a non-update op, without a value hash or with
a non-matching value hash; at the first match, break with that entry's
optional txid. -/
def sync_history_scan (hist : List (Nat × HistItem)) (zonefile_hash : String) :
    List Nat → Option (Option String)
  | [] => none
  | k :: rest =>
    match lookupHist hist k with
    | none => sync_history_scan hist zonefile_hash rest
    | some item =>
      match item.op with
      | none => sync_history_scan hist zonefile_hash rest
      | some op =>
        if op != NAME_UPDATE then sync_history_scan hist zonefile_hash rest
        else
          match item.value_hash with
          | none => sync_history_scan hist zonefile_hash rest
          | some vh =>
            if vh != zonefile_hash then sync_history_scan hist zonefile_hash rest
            else some item.txid

/-- Record-based txid resolution of `cli_sync_zonefile`: when the last
operation is a NAME_UPDATE, accept the record txid if its value hash
matches; otherwise walk the history keys in `reversed(sorted(...))`
order. -/
def sync_lookup_record_txid (rec : NameRec) (zonefile_hash : String) : Option String :=
  if rec.op == NAME_UPDATE then
    if rec.value_hash == some zonefile_hash then some rec.txid else none
  else
    match sync_history_scan rec.history zonefile_hash
        (sortAsc (rec.history.map Prod.fst)).reverse with
    | some t => t
    | none => none

/-- Observable outcome of `cli_sync_zonefile`: the returned value, whether
`zonefile_data_replicate` was invoked, and the txid it was invoked
with. -/
structure SyncOutcome where
  result : Except String Dict
  replicator_called : Bool
  txid_used : Option String
  deriving Repr

/-- Replication tail of `cli_sync_zonefile`. -/
def sync_replicate (env : Env) (zonefile_hash txid : String) : SyncOutcome :=
  if env.replicate_result.hasKey "error" then
    ⟨.ok env.replicate_result, true, some txid⟩
  else
    ⟨.ok [("status", .b true), ("value_hash", .s zonefile_hash)], true, some txid⟩

/-- From `actions.py` `cli_sync_zonefile`, invoked without the optional
zonefile argument: resolve the zonefile payload and its txid from (a) the
pending update queue, (b) the current name record when its last op is a
NAME_UPDATE with a matching value hash, or (c) the record history in
`reversed(sorted(...))` key order; then replicate.  A queued zonefile
entry overwrites both the payload and any supplied txid. -/
def cli_sync_zonefile (env : Env) (name : String) (txid_arg : Option String) :
    SyncOutcome :=
  let qscan := sync_queue_scan env.sync_queue
  let txid0 : Option String :=
    match qscan with
    | some (_, tx) => tx
    | none => txid_arg
  let fetched : Except (Except String Dict) String :=
    match qscan with
    | some (zf, _) => .ok zf
    | none =>
      match env.sync_get_name_zonefile with
      | none => .error (.ok [("error", .s "No data loaded")])
      | some d =>
        if d.hasKey "error" then .error (.ok d)
        else
          match d.get "zonefile" with
          | some (.s zf) => .ok zf
          | _ => .error (.error "KeyError: zonefile")
  match fetched with
  | .error out => ⟨out, false, none⟩
  | .ok user_data =>
    let zonefile_hash := env.get_zonefile_data_hash user_data
    match txid0 with
    | some t => sync_replicate env zonefile_hash t
    | none =>
      match env.sync_name_rec with
      | none =>
        ⟨.ok [("error", .s "Failed to get name record to look up tx hash.")], false, none⟩
      | some rec =>
        match sync_lookup_record_txid rec zonefile_hash with
        | none =>
          ⟨.ok [("error", .s "Unable to lookup txid that wrote zonefile")], false, none⟩
        | some t => sync_replicate env zonefile_hash t

/-! ### Concrete environments for witnesses and counterexamples -/

/-- A benign baseline environment: every external collaborator succeeds,
the wallet holds all keys, the queue is empty, and any text parses as a
zone file for the name `foo.test` with a 3600-second TTL. -/
def env0 : Env where
  is_name_valid := fun _ => true
  is_b40 := fun _ => true
  is_name_registered := fun _ => true
  is_name_owner := fun _ _ => true
  payment_address := "1Payment"
  owner_address := "1Owner"
  estimate_preorder_tx_fee := some 100
  estimate_register_tx_fee := some 100
  estimate_update_tx_fee := some 100
  estimate_transfer_tx_fee := some 100
  get_tx_fee := fun _ => some 50
  get_balance := fun _ => some 100000
  is_address_usable := fun _ => true
  is_b58check := fun _ => true
  names_owned := fun _ => 0
  get_name_cost := .ok 64000
  utxo_exception := false
  wallet_ensure_exists := [("status", .b true)]
  start_rpc_endpoint := [("status", .b true)]
  get_wallet_keys :=
    [("payment_privkey", .s "paykey"), ("owner_privkey", .s "ownkey"),
     ("data_pubkey", .s "datakey")]
  backend_update := .ok [("success", .b true), ("transaction_hash", .s "txupd")]
  backend_transfer := .ok [("success", .b true), ("transaction_hash", .s "txxfer")]
  backend_revoke := .ok [("success", .b true), ("transaction_hash", .s "txrev")]
  backend_migrate := .ok [("success", .b true), ("transaction_hash", .s "txmig")]
  backend_queue_effect := fun kind q => ⟨kind, "foo.test", some "txnew", none⟩ :: q
  queue := []
  getinfo := [("last_block_processed", .i 400000), ("consensus_hash", .s "abcd")]
  get_consensus_at := fun _ => .s "chash"
  json_loads_zone := fun _ => none
  parse_zone_file := fun s => some ⟨some "foo.test", some (some 3600), s⟩
  make_zone_file := fun z => some z.content
  is_user_zonefile := fun _ => true
  get_zonefile_data_hash := fun s => "hash:" ++ s
  name_value_hash := fun _ => none
  prompt_invalid_zonefile := true
  path_exists := fun _ => false
  read_file := fun _ => none
  update_get_name_zonefile := none
  migrate_zonefile := .noneRes
  is_profile_in_legacy_format := fun _ => false
  migrate_prompt := true
  revoke_confirm := true
  get_name_blockchain_record := .ok [("value_hash", .s "vh"), ("revoked", .b false)]
  lookup_profile := some (.inr (.s "profiledata", .s "rawzonefile"))
  wallet_fetch := fun _ => .ok []
  sync_queue := []
  sync_get_name_zonefile := none
  sync_name_rec := none
  replicate_result := [("status", .b true)]

/-! ### C5: cli_ operations return result-or-error dicts; cli_consensus -/

/-- C5: the claim fails on the code.  The `getinfo` reply of `env0`
contains both `last_block_processed` and `consensus_hash`, yet
`cli_consensus` without a block height raises `KeyError` instead of
returning `{'consensus': ..., 'block_height': ...}`, because line 2040 of
`actions.py` subscripts the misspelled key `consensns_hash` right after
guarding on the correctly spelled one. -/
theorem C5_consensus_keyerror :
    (env0.getinfo.hasKey "last_block_processed" = true ∧
      env0.getinfo.hasKey "consensus_hash" = true) ∧
    cli_consensus env0 none = .error "KeyError: consensns_hash" :=
  ⟨⟨rfl, rfl⟩, rfl⟩

/-! ### C6: bounded wallet fetch retry -/

/-- C6: the claim fails on the code.  When every attempt raises
connection-refused, `get_wallet_with_backoff` makes exactly three bounded
attempts with linearly increasing sleeps (1, 2, 3 seconds), but then
returns the Python value `None`: the loop `for i in range(3)` leaves
`i == 2`, so the guard `if i == 3` that would build the
`{'error': 'Failed to connect to API daemon'}` reply never fires, although
the function docstring promises an error dict. -/
theorem C6_backoff_returns_none :
    get_wallet_with_backoff (fun _ => FetchOutcome.connRefused) =
      ⟨Except.ok none, [1, 2, 3]⟩ :=
  rfl

/-! ### C9: bucket exponent validation in cli_namespace_reveal -/

/-- C9: `cli_namespace_reveal` rejects, before any transaction is
constructed or any reveal call is reached, every `bucket_exponents` string
that does not split into exactly 16 comma-separated values or whose values
are not all integers in `[0, 15]`. -/
theorem C9_bucket_validation (s : String)
    (h : (((splitComma s).length == 16) &&
      (parse_bucket_exponents (splitComma s)).isSome) = false) :
    (cli_namespace_reveal s).reveal_attempted = false ∧
    ((cli_namespace_reveal s).result =
        .ok [("error", .s "`bucket_exponents` must be a 16-value CSV of integers")] ∨
      (cli_namespace_reveal s).result =
        .ok [("error", .s "`bucket_exponents` must contain integers between 0 and 15, inclusively.")]) := by
  rw [Bool.and_eq_false_iff] at h
  rcases h with h | h
  · have hb : ((splitComma s).length != 16) = true := by
      simp [bne, h]
    unfold cli_namespace_reveal
    simp only [hb, if_true]
    exact ⟨trivial, Or.inl trivial⟩
  · have hnone : parse_bucket_exponents (splitComma s) = none := by
      cases hp : parse_bucket_exponents (splitComma s) with
      | none => rfl
      | some v => rw [hp] at h; simp at h
    by_cases h16 : ((splitComma s).length == 16) = true
    · have hb : ((splitComma s).length != 16) = false := by
        simp [bne, h16]
      unfold cli_namespace_reveal
      simp only [hb, if_false, Bool.false_eq_true, hnone]
      exact ⟨trivial, Or.inr trivial⟩
    · have h16f : ((splitComma s).length == 16) = false := by
        revert h16
        cases ((splitComma s).length == 16) <;> simp
      have hb : ((splitComma s).length != 16) = true := by
        simp [bne, h16f]
      unfold cli_namespace_reveal
      simp only [hb, if_true]
      exact ⟨trivial, Or.inl trivial⟩

/-- Witness for C9 at the concrete input `"3,99,5"`: three fields, so the
length check fails and the reveal call is never reached. -/
theorem C9_bucket_validation_witness :
    (((splitComma "3,99,5").length == 16) &&
      (parse_bucket_exponents (splitComma "3,99,5")).isSome) = false ∧
    ((cli_namespace_reveal "3,99,5").reveal_attempted = false ∧
      ((cli_namespace_reveal "3,99,5").result =
          .ok [("error", .s "`bucket_exponents` must be a 16-value CSV of integers")] ∨
        (cli_namespace_reveal "3,99,5").result =
          .ok [("error", .s "`bucket_exponents` must contain integers between 0 and 15, inclusively.")])) :=
  ⟨by decide, C9_bucket_validation "3,99,5" (by decide)⟩

/-! ### C10: revoked names in cli_lookup and cli_whois -/

/-- C10: for every valid name whose blockchain record is revoked — and
well-formed: no `error` key, and carrying the `value_hash` field that
`NAMEREC_FIELDS` in `config.py` fixes for every name record — both
`cli_lookup` and `cli_whois` return exactly the revoked-name error dict,
so neither ever returns profile, zonefile or whois fields for it. -/
theorem C10_revoked_lookup_whois (env : Env) (name : String) (rec : Dict)
    (hname : check_valid_name env name = none)
    (hrec : env.get_name_blockchain_record = .ok rec)
    (herr : rec.hasKey "error" = false)
    (hvh : rec.hasKey "value_hash" = true)
    (hrev : rec.get "revoked" = some (.b true)) :
    cli_lookup env name =
      .ok [("error", .s "Name is revoked. Use get_name_blockchain_record for details.")] ∧
    cli_whois env name =
      .ok [("error", .s "Name is revoked. Use get_name_blockchain_record for details.")] := by
  constructor
  · unfold cli_lookup
    rw [hname, hrec]
    simp [herr, hvh, hrev, Val.truthy]
  · unfold cli_whois
    rw [hname, hrec]
    simp [herr, hrev, Val.truthy]

/-- A concrete environment whose name record is revoked. -/
def envC10 : Env :=
  { env0 with
    get_name_blockchain_record :=
      .ok [("value_hash", .s "vh"), ("revoked", .b true)] }

/-- Witness for C10 at a concrete revoked record. -/
theorem C10_revoked_lookup_whois_witness :
    cli_lookup envC10 "foo.test" =
      .ok [("error", .s "Name is revoked. Use get_name_blockchain_record for details.")] ∧
    cli_whois envC10 "foo.test" =
      .ok [("error", .s "Name is revoked. Use get_name_blockchain_record for details.")] :=
  C10_revoked_lookup_whois envC10 "foo.test"
    [("value_hash", .s "vh"), ("revoked", .b true)] rfl rfl rfl rfl rfl

/-! ### C4: transfer to an address over the name cap -/

/-- C4: for every transfer whose preconditions up to the cap check pass
but whose destination address owns at least the configured cap of
`MAXIMUM_NAMES_PER_ADDRESS = 25` names (so `can_receive_name` is false),
`operation_sanity_check` — and hence `cli_transfer` — returns the
owns-too-many-names error, no backend transfer call is made, and the
queue is unchanged. -/
theorem C4_transfer_cap (env : Env) (name address : String) (fee balance : Int)
    (hwe : env.wallet_ensure_exists.hasKey "error" = false)
    (hrpc : env.start_rpc_endpoint.hasKey "error" = false)
    (hwk : env.get_wallet_keys.hasKey "error" = false)
    (hname : check_valid_name env name = none)
    (hpay : env.get_wallet_keys.hasKey "payment_privkey" = true)
    (hownk : env.get_wallet_keys.hasKey "owner_privkey" = true)
    (hreg : env.is_name_registered name = true)
    (howner : env.is_name_owner name env.owner_address = true)
    (hfee : env.estimate_transfer_tx_fee = some fee)
    (hbal : env.get_balance env.payment_address = some balance)
    (hble : ¬ balance < fee)
    (husable : env.is_address_usable env.payment_address = true)
    (hb58 : env.is_b58check address = true)
    (hcap : MAXIMUM_NAMES_PER_ADDRESS ≤ env.names_owned address) :
    operation_sanity_check env name (some address) =
      [("error", .s ("Address " ++ address ++ " owns too many names already."))] ∧
    cli_transfer env name address =
      ⟨.ok [("error", .s ("Address " ++ address ++ " owns too many names already."))],
       [], env.queue⟩ := by
  have hcr : can_receive_name env address = false := by
    unfold can_receive_name
    simp only [decide_eq_false_iff_not]
    omega
  have hsan : operation_sanity_check env name (some address) =
      [("error", .s ("Address " ++ address ++ " owns too many names already."))] := by
    unfold operation_sanity_check
    rw [hreg, howner]
    simp [hfee, hbal, hble, husable, hb58, hcr]
  refine ⟨hsan, ?_⟩
  unfold cli_transfer
  rw [hname]
  simp [hwe, hrpc, hwk, hpay, hownk, hsan, Dict.hasKey_cons_eq]

/-- A concrete environment whose transfer destination owns 26 names,
one more than the cap. -/
def envC4 : Env :=
  { env0 with names_owned := fun _ => 26 }

/-- Witness for C4: transferring `foo.test` to an address owning 26
names returns the owns-too-many-names error and leaves the queue
unchanged. -/
theorem C4_transfer_cap_witness :
    operation_sanity_check envC4 "foo.test" (some "1DestAddr") =
      [("error", .s "Address 1DestAddr owns too many names already.")] ∧
    cli_transfer envC4 "foo.test" "1DestAddr" =
      ⟨.ok [("error", .s "Address 1DestAddr owns too many names already.")],
       [], []⟩ :=
  C4_transfer_cap envC4 "foo.test" "1DestAddr" 100 100000
    rfl rfl rfl rfl rfl rfl rfl rfl rfl rfl (by decide) rfl rfl (by decide)

/-! ### C2: precondition atomicity of the sanity check -/

/-- C2: for each of the five mutating operations that call
`operation_sanity_check` (update, transfer, revoke, migrate,
set_zonefile_hash), whenever the operation reaches the sanity check and
the check returns an error, the operation returns exactly that error
dict, invokes no backend RPC (so no transaction is broadcast and no
queue entry is created), and the queue after the call equals the queue
before the call. -/
theorem C2_sanity_error_atomicity :
    (∀ (env : Env) (name d ztxt : String),
      env.wallet_ensure_exists.hasKey "error" = false →
      env.start_rpc_endpoint.hasKey "error" = false →
      check_valid_name env name = none →
      env.path_exists d = false →
      env.get_wallet_keys.hasKey "error" = false →
      load_zonefile env name d true = [("status", .b true), ("zonefile", .s ztxt)] →
      env.get_wallet_keys.hasKey "data_pubkey" = true →
      env.get_wallet_keys.hasKey "payment_privkey" = true →
      env.get_wallet_keys.hasKey "owner_privkey" = true →
      (operation_sanity_check env name none).hasKey "error" = true →
      cli_update env name (some d) true =
        ⟨.ok (operation_sanity_check env name none), [], env.queue⟩) ∧
    (∀ (env : Env) (name address : String),
      env.wallet_ensure_exists.hasKey "error" = false →
      env.start_rpc_endpoint.hasKey "error" = false →
      env.get_wallet_keys.hasKey "error" = false →
      check_valid_name env name = none →
      env.get_wallet_keys.hasKey "payment_privkey" = true →
      env.get_wallet_keys.hasKey "owner_privkey" = true →
      (operation_sanity_check env name (some address)).hasKey "error" = true →
      cli_transfer env name address =
        ⟨.ok (operation_sanity_check env name (some address)), [], env.queue⟩) ∧
    (∀ (env : Env) (name : String) (interactive : Bool),
      env.wallet_ensure_exists.hasKey "error" = false →
      env.start_rpc_endpoint.hasKey "error" = false →
      check_valid_name env name = none →
      env.is_name_registered name = true →
      env.get_wallet_keys.hasKey "error" = false →
      env.get_wallet_keys.hasKey "owner_privkey" = true →
      env.get_wallet_keys.hasKey "payment_privkey" = true →
      (operation_sanity_check env name none).hasKey "error" = true →
      cli_revoke env name interactive =
        ⟨.ok (operation_sanity_check env name none), [], env.queue⟩) ∧
    (∀ (env : Env) (name : String) (interactive force : Bool),
      env.wallet_ensure_exists.hasKey "error" = false →
      check_valid_name env name = none →
      env.start_rpc_endpoint.hasKey "error" = false →
      env.get_wallet_keys.hasKey "error" = false →
      env.get_wallet_keys.hasKey "owner_privkey" = true →
      env.get_wallet_keys.hasKey "payment_privkey" = true →
      (operation_sanity_check env name none).hasKey "error" = true →
      cli_migrate env name interactive force =
        ⟨.ok (operation_sanity_check env name none), [], env.queue⟩) ∧
    (∀ (env : Env) (name zh : String),
      env.wallet_ensure_exists.hasKey "error" = false →
      env.start_rpc_endpoint.hasKey "error" = false →
      check_valid_name env name = none →
      (zh.toList.all isHexChar && zh.length == 40) = true →
      env.get_wallet_keys.hasKey "error" = false →
      env.get_wallet_keys.hasKey "owner_privkey" = true →
      env.get_wallet_keys.hasKey "payment_privkey" = true →
      (operation_sanity_check env name none).hasKey "error" = true →
      cli_set_zonefile_hash env name zh =
        ⟨.ok (operation_sanity_check env name none), [], env.queue⟩) := by
  refine ⟨?_, ?_, ?_, ?_, ?_⟩
  · intro env name d ztxt hwe hrpc hname hpath hwk hload hdp hpp hop hsan
    unfold cli_update
    rw [hname]
    simp [hwe, hrpc, hpath, hwk, pystr, hload, hdp, hpp, hop, hsan,
      Dict.hasKey_cons_eq, Dict.get_cons_eq, Dict.hasKey_nil_eq]
  · intro env name address hwe hrpc hwk hname hpp hop hsan
    unfold cli_transfer
    rw [hname]
    simp [hwe, hrpc, hwk, hpp, hop, hsan]
  · intro env name interactive hwe hrpc hname hreg hwk hop hpp hsan
    unfold cli_revoke
    rw [hname]
    simp [hwe, hrpc, hreg, hwk, hop, hpp, hsan]
  · intro env name interactive force hwe hname hrpc hwk hop hpp hsan
    unfold cli_migrate
    rw [hname]
    simp [hwe, hrpc, hwk, hop, hpp, hsan]
  · intro env name zh hwe hrpc hname hzh hwk hop hpp hsan
    unfold cli_set_zonefile_hash
    rw [hname, hzh]
    simp [hwe, hrpc, hwk, hop, hpp, hsan]

/-- A concrete environment in which the wallet owner does not own the
name, so every sanity check fails with the possession error. -/
def envC2 : Env :=
  { env0 with is_name_owner := fun _ _ => false }

/-- Witness for C2: each of the five operations, run against `envC2`,
returns the sanity-check possession error, makes no backend call and
leaves the empty queue empty. -/
theorem C2_sanity_error_atomicity_witness :
    cli_update envC2 "foo.test" (some "zfdata") true =
      ⟨.ok [("error", .s "foo.test is not in your possession.")], [], []⟩ ∧
    cli_transfer envC2 "foo.test" "1DestAddr" =
      ⟨.ok [("error", .s "foo.test is not in your possession.")], [], []⟩ ∧
    cli_revoke envC2 "foo.test" true =
      ⟨.ok [("error", .s "foo.test is not in your possession.")], [], []⟩ ∧
    cli_migrate envC2 "foo.test" true false =
      ⟨.ok [("error", .s "foo.test is not in your possession.")], [], []⟩ ∧
    cli_set_zonefile_hash envC2 "foo.test"
        "aaaaaaaaaaaaaaaaaaaaaaaaaaaaaaaaaaaaaaaa" =
      ⟨.ok [("error", .s "foo.test is not in your possession.")], [], []⟩ :=
  ⟨C2_sanity_error_atomicity.1 envC2 "foo.test" "zfdata" "zfdata"
      rfl rfl rfl rfl rfl rfl rfl rfl rfl rfl,
   C2_sanity_error_atomicity.2.1 envC2 "foo.test" "1DestAddr"
      rfl rfl rfl rfl rfl rfl rfl,
   C2_sanity_error_atomicity.2.2.1 envC2 "foo.test" true
      rfl rfl rfl rfl rfl rfl rfl rfl,
   C2_sanity_error_atomicity.2.2.2.1 envC2 "foo.test" true false
      rfl rfl rfl rfl rfl rfl rfl,
   C2_sanity_error_atomicity.2.2.2.2 envC2 "foo.test"
      "aaaaaaaaaaaaaaaaaaaaaaaaaaaaaaaaaaaaaaaa"
      rfl rfl rfl (by decide) rfl rfl rfl rfl⟩

/-! ### C1: identical-zonefile update -/

/-- A concrete environment in which the on-chain value hash of every name
equals the computed hash of the serialized zonefile `"zf1"`. -/
def envC1 : Env :=
  { env0 with name_value_hash := fun _ => some "hash:zf1" }

/-- C1: the claim fails on the code.  At a concrete input whose computed
zonefile hash equals the current on-chain value hash, `cli_update` does
return an identical-zonefile error and invokes no backend RPC, but the
returned dict has no `identical` field at all: `cli_update` discards the
result of `load_zonefile` (which does carry `identical: True`) and builds
a fresh error dict. -/
theorem C1_counterexample :
    envC1.name_value_hash "foo.test" =
      some (envC1.get_zonefile_data_hash "zf1") ∧
    cli_update envC1 "foo.test" (some "zf1") true =
      ⟨.ok [("error", .s "Zonefile matches the current name hash; not updating.")],
       [], []⟩ ∧
    (match (cli_update envC1 "foo.test" (some "zf1") true).result with
     | .ok d => d.hasKey "identical"
     | .error _ => false) = false ∧
    (load_zonefile envC1 "foo.test" "zf1" true).hasKey "identical" = true :=
  ⟨rfl, rfl, rfl, rfl⟩

/-- C1 (amended): for every name and every payload that parses as a
zonefile for that name (correct `$origin`, non-negative `$ttl`, standard
URI/TXT shape) and whose computed hash equals the name's current on-chain
value hash, `load_zonefile` returns an identical-flagged result
(`identical: True`), while `cli_update` returns an error dict whose
message says the zonefile matches the current name hash — without the
`identical` field — creates no queue entry, and never invokes the backend
update RPC. -/
theorem C1_identical_update_noop (env : Env) (name d ztxt : String)
    (ud : PyZone) (t : Int)
    (hwe : env.wallet_ensure_exists.hasKey "error" = false)
    (hrpc : env.start_rpc_endpoint.hasKey "error" = false)
    (hname : check_valid_name env name = none)
    (hpath : env.path_exists d = false)
    (hwk : env.get_wallet_keys.hasKey "error" = false)
    (hjson : env.json_loads_zone d = none)
    (hparse : env.parse_zone_file d = some ud)
    (hmake : env.make_zone_file ud = some ztxt)
    (horigin : ud.origin.getD "" = name)
    (httl : ud.ttl = some (some t))
    (ht : ¬ t < 0)
    (huser : env.is_user_zonefile ud = true)
    (hhash : env.name_value_hash name = some (env.get_zonefile_data_hash ztxt)) :
    (load_zonefile env name d true).hasKey "identical" = true ∧
    cli_update env name (some d) true =
      ⟨.ok [("error", .s "Zonefile matches the current name hash; not updating.")],
       [], env.queue⟩ := by
  have hcur : is_zonefile_current env name ud = true := by
    unfold is_zonefile_current
    rw [hmake, hhash]
    simp
  have hload : load_zonefile env name d true =
      [("error", .s "Zonefile data is same as current zonefile; update not needed."),
       ("identical", .b true), ("zonefile", .s ztxt)] := by
    unfold load_zonefile zonefile_parsed
    rw [hjson, hparse]
    simp [hmake, horigin, httl, ht, huser, hcur]
  refine ⟨by rw [hload]; rfl, ?_⟩
  unfold cli_update
  rw [hname]
  simp [hwe, hrpc, hpath, hwk, pystr, hload,
    Dict.hasKey_cons_eq, Dict.hasKey_nil_eq]

/-- Witness for the amended C1 at a concrete identical zonefile. -/
theorem C1_identical_update_noop_witness :
    (load_zonefile envC1 "foo.test" "zf1" true).hasKey "identical" = true ∧
    cli_update envC1 "foo.test" (some "zf1") true =
      ⟨.ok [("error", .s "Zonefile matches the current name hash; not updating.")],
       [], []⟩ :=
  C1_identical_update_noop envC1 "foo.test" "zf1" "zf1"
    ⟨some "foo.test", some (some 3600), "zf1"⟩ 3600
    rfl rfl rfl rfl rfl rfl rfl rfl rfl rfl (by decide) rfl rfl

/-! ### C3: fee fallback flagging -/

/-- The selected fee is present whenever the fallback heuristic yields a
value. -/
theorem fee_pick_fst_isSome (env : Env) (est : Option Int) (approx : TxApprox)
    (hfall : (env.get_tx_fee approx).isSome = true) :
    (fee_pick env est approx).1.isSome = true := by
  cases est <;> simp [fee_pick, hfall]

/-- The fallback flag of `fee_pick` records exactly that the live
estimate was absent. -/
theorem fee_pick_snd_eq (env : Env) (est : Option Int) (approx : TxApprox) :
    (fee_pick env est approx).2 = est.isNone := by
  cases est <;> simp [fee_pick]

/-- A concrete environment in which the live update fee estimator fails
while the byte-length fallback succeeds. -/
def envC3 : Env :=
  { env0 with estimate_update_tx_fee := none }

/-- C3: the claim fails on the code.  In `operation_sanity_check`, when
live fee estimation fails (`estimate_update_tx_fee` is `None`) and the
byte-length fallback succeeds, the fallback estimate is used silently:
the result is a plain `{'status': True}` carrying no warning at all, so
the fallback is treated exactly like a live estimate. -/
theorem C3_counterexample :
    envC3.estimate_update_tx_fee = none ∧
    envC3.get_tx_fee TxApprox.update = some 50 ∧
    operation_sanity_check envC3 "foo.test" none = [("status", Val.b true)] :=
  ⟨rfl, rfl, rfl⟩

/-- C3 (amended): in `get_total_registration_fees`, whenever any live fee
estimate fails and the byte-length fallback yields values, the reply
contains all three fee fields and an explicit `warnings` list flagging
the fees as rough estimates.  In `operation_sanity_check`, by contrast,
the fallback estimate is used without any warning, and if the fallback
itself also fails the check returns the explicit error
`Failed to get fee estimate` instead of proceeding. -/
theorem C3_fallback_flagging :
    (∀ (env : Env) (pk opk : Bool) (sat : Int),
      env.get_name_cost = .ok sat →
      env.utxo_exception = false →
      (env.estimate_preorder_tx_fee = none ∨
        env.estimate_register_tx_fee = none ∨
        env.estimate_update_tx_fee = none) →
      (∀ k, (env.get_tx_fee k).isSome = true) →
      ∃ d, get_total_registration_fees env pk opk = .ok d ∧
        d.hasKey "warnings" = true ∧
        d.hasKey "preorder_tx_fee" = true ∧
        d.hasKey "register_tx_fee" = true ∧
        d.hasKey "update_tx_fee" = true) ∧
    (∀ (env : Env) (fqu : String) (f b : Int),
      env.is_name_registered fqu = true →
      env.is_name_owner fqu env.owner_address = true →
      env.estimate_update_tx_fee = none →
      env.get_tx_fee TxApprox.update = some f →
      env.get_balance env.payment_address = some b →
      ¬ b < f →
      env.is_address_usable env.payment_address = true →
      operation_sanity_check env fqu none = [("status", .b true)]) ∧
    (∀ (env : Env) (fqu : String),
      env.is_name_registered fqu = true →
      env.is_name_owner fqu env.owner_address = true →
      env.estimate_update_tx_fee = none →
      env.get_tx_fee TxApprox.update = none →
      operation_sanity_check env fqu none =
        [("error", .s "Failed to get fee estimate")]) := by
  refine ⟨?_, ?_, ?_⟩
  · intro env pk opk sat hc hx hany hfall
    obtain ⟨p, hp⟩ := Option.isSome_iff_exists.mp
      (fee_pick_fst_isSome env env.estimate_preorder_tx_fee TxApprox.preorder
        (hfall TxApprox.preorder))
    obtain ⟨r, hr⟩ := Option.isSome_iff_exists.mp
      (fee_pick_fst_isSome env env.estimate_register_tx_fee TxApprox.register
        (hfall TxApprox.register))
    obtain ⟨u, hu⟩ := Option.isSome_iff_exists.mp
      (fee_pick_fst_isSome env env.estimate_update_tx_fee TxApprox.update
        (hfall TxApprox.update))
    have hins : ((fee_pick env env.estimate_preorder_tx_fee TxApprox.preorder).2 ||
        (fee_pick env env.estimate_register_tx_fee TxApprox.register).2 ||
        (fee_pick env env.estimate_update_tx_fee TxApprox.update).2) = true := by
      rcases hany with h | h | h <;>
        simp [fee_pick_snd_eq, h]
    unfold get_total_registration_fees
    rw [hc]
    simp only [hx, Bool.false_eq_true, if_false]
    rw [hp, hr, hu]
    simp only [hins]
    cases pk <;>
      exact ⟨_, rfl, by simp [Dict.hasKey_cons_eq, Dict.hasKey_nil_eq],
        by simp [Dict.hasKey_cons_eq, Dict.hasKey_nil_eq],
        by simp [Dict.hasKey_cons_eq, Dict.hasKey_nil_eq],
        by simp [Dict.hasKey_cons_eq, Dict.hasKey_nil_eq]⟩
  · intro env fqu f b hreg howner hest hfall hbal hble husable
    unfold operation_sanity_check
    simp [hreg, howner, hest, hfall, hbal, hble, husable]
  · intro env fqu hreg howner hest hfall
    unfold operation_sanity_check
    simp [hreg, howner, hest, hfall]

/-- A concrete environment whose register estimate fails while the other
externals succeed. -/
def envC3a : Env :=
  { env0 with estimate_register_tx_fee := none }

/-- A concrete environment in which both the live update estimate and the
byte-length fallback fail. -/
def envC3b : Env :=
  { env0 with estimate_update_tx_fee := none, get_tx_fee := fun _ => none }

/-- Witness for the amended C3: a failed register estimate yields a
warnings-flagged registration fee reply; a failed update estimate with a
working fallback passes the sanity check silently; a failed update
estimate with a failed fallback yields the explicit fee error. -/
theorem C3_fallback_flagging_witness :
    (∃ d, get_total_registration_fees envC3a true true = .ok d ∧
      d.hasKey "warnings" = true ∧
      d.hasKey "preorder_tx_fee" = true ∧
      d.hasKey "register_tx_fee" = true ∧
      d.hasKey "update_tx_fee" = true) ∧
    operation_sanity_check envC3 "foo.test" none = [("status", .b true)] ∧
    operation_sanity_check envC3b "foo.test" none =
      [("error", .s "Failed to get fee estimate")] :=
  ⟨C3_fallback_flagging.1 envC3a true true 64000 rfl rfl
      (Or.inr (Or.inl rfl)) (fun _ => rfl),
   C3_fallback_flagging.2.1 envC3 "foo.test" 50 100000
      rfl rfl rfl rfl rfl (by decide) rfl,
   C3_fallback_flagging.2.2 envC3b "foo.test" rfl rfl rfl rfl⟩

/-! ### C7: the load_zonefile contract -/

/-- Transcription of the validity condition of claim C7, clause by
clause: the payload parses as a zonefile (as JSON or zone-file text, the
parsed form re-serializing), its `$origin` equals the target name, its
`$ttl` is present and converts to a non-negative integer, it has the
minimum URI/TXT record shape of a standard user zonefile, and — when
currency is checked — its hash differs from the name's current on-chain
value hash. -/
def zonefile_valid_claim (env : Env) (fqu : String) (zonefile_data : String)
    (check_current : Bool) : Bool :=
  match zonefile_parsed env zonefile_data with
  | none => false
  | some ud =>
    (env.make_zone_file ud).isSome &&
    (ud.origin.getD "" == fqu) &&
    (match ud.ttl with
     | some (some t) => decide (0 ≤ t)
     | _ => false) &&
    env.is_user_zonefile ud &&
    (!check_current || !is_zonefile_current env fqu ud)

/-- C7: `load_zonefile` returns a success result (a dict with `status`)
exactly when the payload satisfies the claim's validity condition, and
each failure mode carries its own distinguishing error message: parse
failure, re-serialization failure, `$origin` mismatch, missing `$ttl`,
and missing or malformed URI/TXT records. -/
theorem C7_load_zonefile_contract (env : Env) (fqu zd : String) (cc : Bool) :
    ((load_zonefile env fqu zd cc).hasKey "status" =
      zonefile_valid_claim env fqu zd cc) ∧
    (zonefile_parsed env zd = none →
      load_zonefile env fqu zd cc = [("error", .s "Zonefile data is invalid.")]) ∧
    (∀ ud, zonefile_parsed env zd = some ud → env.make_zone_file ud = none →
      load_zonefile env fqu zd cc = [("error", .s "Invalid zonefile")]) ∧
    (∀ ud z, zonefile_parsed env zd = some ud → env.make_zone_file ud = some z →
      ud.origin.getD "" ≠ fqu →
      load_zonefile env fqu zd cc =
        [("error", .s "Invalid $origin; must use your name")]) ∧
    (∀ ud z, zonefile_parsed env zd = some ud → env.make_zone_file ud = some z →
      ud.origin.getD "" = fqu → ud.ttl = none →
      load_zonefile env fqu zd cc =
        [("error", .s "Missing $ttl; please supply a positive integer")]) ∧
    (∀ ud z, zonefile_parsed env zd = some ud → env.make_zone_file ud = some z →
      ud.origin.getD "" = fqu → ud.ttl ≠ none → env.is_user_zonefile ud = false →
      load_zonefile env fqu zd cc =
        [("error", .s "Zonefile is missing or has invalid URI and/or TXT records")]) := by
  refine ⟨?_, ?_, ?_, ?_, ?_, ?_⟩
  · unfold load_zonefile zonefile_valid_claim
    cases hp : zonefile_parsed env zd with
    | none => simp [hp, Dict.hasKey_cons_eq, Dict.hasKey_nil_eq]
    | some ud =>
      cases hm : env.make_zone_file ud with
      | none => simp [hp, hm, Dict.hasKey_cons_eq, Dict.hasKey_nil_eq]
      | some z =>
        by_cases ho : fqu = ud.origin.getD ""
        · have hbne : (fqu != ud.origin.getD "") = false := by
            simp [bne, ho]
          have hbeq : (ud.origin.getD "" == fqu) = true := by
            simp [ho]
          cases htt : ud.ttl with
          | none =>
            simp [hp, hm, hbne, hbeq, htt, Dict.hasKey_cons_eq, Dict.hasKey_nil_eq]
          | some t? =>
            cases huz : env.is_user_zonefile ud with
            | false =>
              simp [hp, hm, hbne, hbeq, htt, huz,
                Dict.hasKey_cons_eq, Dict.hasKey_nil_eq]
            | true =>
              cases t? with
              | none =>
                simp [hp, hm, hbne, hbeq, htt, huz,
                  Dict.hasKey_cons_eq, Dict.hasKey_nil_eq]
              | some t =>
                by_cases htneg : t < 0
                · simp [hp, hm, hbne, hbeq, htt, huz, htneg, Int.not_le.mpr htneg,
                    Dict.hasKey_cons_eq, Dict.hasKey_nil_eq]
                · cases hcur : (cc && is_zonefile_current env fqu ud) with
                  | true =>
                    rcases Bool.and_eq_true_iff.mp hcur with ⟨hcc, hzc⟩
                    simp [hp, hm, hbne, hbeq, htt, huz, htneg, hcc, hzc,
                      Int.not_lt.mp htneg, Dict.hasKey_cons_eq, Dict.hasKey_nil_eq]
                  | false =>
                    rcases Bool.and_eq_false_iff.mp hcur with hcc | hzc
                    · simp [hp, hm, hbne, hbeq, htt, huz, htneg, hcc,
                        Int.not_lt.mp htneg, Dict.hasKey_cons_eq, Dict.hasKey_nil_eq]
                    · simp [hp, hm, hbne, hbeq, htt, huz, htneg, hzc,
                        Int.not_lt.mp htneg, Dict.hasKey_cons_eq, Dict.hasKey_nil_eq]
        · have hbne : (fqu != ud.origin.getD "") = true :=
            bne_iff_ne.mpr ho
          have hbeq : (ud.origin.getD "" == fqu) = false :=
            beq_eq_false_iff_ne.mpr (Ne.symm ho)
          simp [hp, hm, hbne, hbeq, Dict.hasKey_cons_eq, Dict.hasKey_nil_eq]
  · intro hp
    unfold load_zonefile
    simp only [hp]
  · intro ud hp hm
    unfold load_zonefile
    simp only [hp, hm]
  · intro ud z hp hm ho
    unfold load_zonefile
    have hbne : (fqu != ud.origin.getD "") = true :=
      bne_iff_ne.mpr (Ne.symm ho)
    simp only [hp, hm, hbne, if_true]
  · intro ud z hp hm ho htt
    unfold load_zonefile
    have hbne : (fqu != ud.origin.getD "") = false := by
      simp [bne, ho]
    simp [hp, hm, hbne, htt]
  · intro ud z hp hm ho htt huz
    unfold load_zonefile
    have hbne : (fqu != ud.origin.getD "") = false := by
      simp [bne, ho]
    have httn : ud.ttl.isNone = false := by
      cases h : ud.ttl with
      | none => exact absurd h htt
      | some _ => rfl
    simp [hp, hm, hbne, httn, huz]

/-- A concrete environment in which the payload parses neither as JSON
nor as zone-file text. -/
def envC7 : Env :=
  { env0 with parse_zone_file := fun _ => none }

/-- Witness for C7: at a concrete unparseable payload, the parse-failure
clause of the contract applies, and at a benign payload the success
equivalence evaluates to a success result. -/
theorem C7_load_zonefile_contract_witness :
    zonefile_parsed envC7 "not a zonefile" = none ∧
    load_zonefile envC7 "foo.test" "not a zonefile" true =
      [("error", .s "Zonefile data is invalid.")] ∧
    (load_zonefile env0 "foo.test" "zfdata" true).hasKey "status" =
      zonefile_valid_claim env0 "foo.test" "zfdata" true :=
  ⟨rfl,
   (C7_load_zonefile_contract envC7 "foo.test" "not a zonefile" true).2.1 rfl,
   (C7_load_zonefile_contract env0 "foo.test" "zfdata" true).1⟩

/-! ### C8: txid resolution in cli_sync_zonefile -/

/-- The history walk equals a first-match search over the looked-up
entries in the given key order: the first entry whose op is NAME_UPDATE
and whose value hash matches, projected to its optional txid. -/
theorem sync_history_scan_eq_find (hist : List (Nat × HistItem)) (zh : String)
    (keys : List Nat) :
    sync_history_scan hist zh keys =
      ((keys.filterMap (lookupHist hist)).find?
        (fun item => item.op == some NAME_UPDATE &&
          item.value_hash == some zh)).map HistItem.txid := by
  induction keys with
  | nil => rfl
  | cons k rest ih =>
    unfold sync_history_scan
    cases hl : lookupHist hist k with
    | none => simp [List.filterMap_cons, hl, ih]
    | some item =>
      simp only [List.filterMap_cons, hl]
      cases hop : item.op with
      | none => simp [List.find?_cons, hop, ih]
      | some op =>
        by_cases hu : op = NAME_UPDATE
        · subst hu
          simp only [bne_self_eq_false, Bool.false_eq_true, if_false]
          cases hvh : item.value_hash with
          | none => simp [List.find?_cons, hop, hvh, ih]
          | some vh =>
            by_cases hz : vh = zh
            · subst hz
              simp [List.find?_cons, hop, hvh]
            · have : (vh != zh) = true := bne_iff_ne.mpr hz
              simp [List.find?_cons, hop, hvh, this, ih,
                beq_eq_false_iff_ne.mpr hz]
        · have : (op != NAME_UPDATE) = true := bne_iff_ne.mpr hu
          simp [List.find?_cons, hop, this, ih,
            beq_eq_false_iff_ne.mpr hu]

/-- C8: `cli_sync_zonefile` without a supplied txid resolves the txid of
the zonefile in order from (a) the pending update queue, (b) the current
record when its last op is NAME_UPDATE with matching value hash, or (c)
the history in reverse-chronological key order (first matching update
operation); whenever these steps find nothing, it returns the
unable-to-lookup error and never invokes the replicator. -/
theorem C8_sync_zonefile_txid :
    (∀ (env : Env) (name zf tx : String),
      sync_queue_scan env.sync_queue = some (zf, some tx) →
      (cli_sync_zonefile env name none).txid_used = some tx) ∧
    (∀ (env : Env) (name zf : String) (d : Dict) (rec : NameRec),
      sync_queue_scan env.sync_queue = none →
      env.sync_get_name_zonefile = some d →
      d.hasKey "error" = false →
      d.get "zonefile" = some (.s zf) →
      env.sync_name_rec = some rec →
      rec.op = NAME_UPDATE →
      rec.value_hash = some (env.get_zonefile_data_hash zf) →
      (cli_sync_zonefile env name none).txid_used = some rec.txid) ∧
    (∀ (env : Env) (name zf : String) (d : Dict) (rec : NameRec),
      sync_queue_scan env.sync_queue = none →
      env.sync_get_name_zonefile = some d →
      d.hasKey "error" = false →
      d.get "zonefile" = some (.s zf) →
      env.sync_name_rec = some rec →
      rec.op ≠ NAME_UPDATE →
      (cli_sync_zonefile env name none).txid_used =
        ((((sortAsc (rec.history.map Prod.fst)).reverse.filterMap
            (lookupHist rec.history)).find?
          (fun item => item.op == some NAME_UPDATE &&
            item.value_hash == some (env.get_zonefile_data_hash zf))).bind
          HistItem.txid)) ∧
    (∀ (env : Env) (name zf : String) (d : Dict) (rec : NameRec),
      sync_queue_scan env.sync_queue = none →
      env.sync_get_name_zonefile = some d →
      d.hasKey "error" = false →
      d.get "zonefile" = some (.s zf) →
      env.sync_name_rec = some rec →
      sync_lookup_record_txid rec (env.get_zonefile_data_hash zf) = none →
      cli_sync_zonefile env name none =
        ⟨.ok [("error", .s "Unable to lookup txid that wrote zonefile")],
         false, none⟩) := by
  refine ⟨?_, ?_, ?_, ?_⟩
  · intro env name zf tx hq
    unfold cli_sync_zonefile
    simp only [hq]
    unfold sync_replicate
    split <;> rfl
  · intro env name zf d rec hq hd herr hzf hrec hop hvh
    unfold cli_sync_zonefile
    simp only [hq, hd, herr, Bool.false_eq_true, if_false, hzf, hrec]
    have hlk : sync_lookup_record_txid rec (env.get_zonefile_data_hash zf) =
        some rec.txid := by
      unfold sync_lookup_record_txid
      simp [hop, hvh]
    simp only [hlk]
    unfold sync_replicate
    split <;> rfl
  · intro env name zf d rec hq hd herr hzf hrec hop
    unfold cli_sync_zonefile
    simp only [hq, hd, herr, Bool.false_eq_true, if_false, hzf, hrec]
    have hlk : sync_lookup_record_txid rec (env.get_zonefile_data_hash zf) =
        ((((sortAsc (rec.history.map Prod.fst)).reverse.filterMap
            (lookupHist rec.history)).find?
          (fun item => item.op == some NAME_UPDATE &&
            item.value_hash == some (env.get_zonefile_data_hash zf))).bind
          HistItem.txid) := by
      unfold sync_lookup_record_txid
      rw [if_neg (by simp [beq_eq_false_iff_ne.mpr hop])]
      rw [sync_history_scan_eq_find]
      cases hfind : ((sortAsc (rec.history.map Prod.fst)).reverse.filterMap
          (lookupHist rec.history)).find?
          (fun item => item.op == some NAME_UPDATE &&
            item.value_hash == some (env.get_zonefile_data_hash zf)) with
      | none => rfl
      | some item => cases item.txid <;> rfl
    simp only [hlk]
    cases hfind : ((sortAsc (rec.history.map Prod.fst)).reverse.filterMap
        (lookupHist rec.history)).find?
        (fun item => item.op == some NAME_UPDATE &&
          item.value_hash == some (env.get_zonefile_data_hash zf)) with
    | none => rfl
    | some item =>
      cases htx : item.txid with
      | none => simp only [Option.some_bind, htx]
      | some t =>
        simp only [Option.some_bind, htx]
        unfold sync_replicate
        split <;> rfl
  · intro env name zf d rec hq hd herr hzf hrec hlk
    unfold cli_sync_zonefile
    simp only [hq, hd, herr, Bool.false_eq_true, if_false, hzf, hrec, hlk]

/-- A concrete environment with a queued update entry carrying a zonefile
and a tx hash. -/
def envC8a : Env :=
  { env0 with
    sync_queue := [⟨"update", "foo.test", some "txqueue", some "zfqueue"⟩] }

/-- A concrete environment whose current record is a NAME_UPDATE with the
matching value hash. -/
def envC8b : Env :=
  { env0 with
    sync_get_name_zonefile := some [("zonefile", .s "zz")],
    sync_name_rec := some ⟨"+", some "hash:zz", "txrec", []⟩ }

/-- A concrete environment whose current record is not an update but
whose history holds a matching update at height 5. -/
def envC8c : Env :=
  { env0 with
    sync_get_name_zonefile := some [("zonefile", .s "zz")],
    sync_name_rec :=
      some ⟨">", none, "txother",
        [(5, ⟨some "+", some "hash:zz", some "txhist"⟩)]⟩ }

/-- A concrete environment in which no txid can be attributed to the
zonefile. -/
def envC8d : Env :=
  { env0 with
    sync_get_name_zonefile := some [("zonefile", .s "zz")],
    sync_name_rec := some ⟨">", none, "txother", []⟩ }

/-- Witness for C8: the queue, record, history and failure clauses at
concrete environments. -/
theorem C8_sync_zonefile_txid_witness :
    (cli_sync_zonefile envC8a "foo.test" none).txid_used = some "txqueue" ∧
    (cli_sync_zonefile envC8b "foo.test" none).txid_used = some "txrec" ∧
    (cli_sync_zonefile envC8c "foo.test" none).txid_used =
      ((((sortAsc ([(5, (⟨some "+", some "hash:zz", some "txhist"⟩ : HistItem))].map Prod.fst)).reverse.filterMap
          (lookupHist [(5, ⟨some "+", some "hash:zz", some "txhist"⟩)])).find?
        (fun item => item.op == some NAME_UPDATE &&
          item.value_hash == some (envC8c.get_zonefile_data_hash "zz"))).bind
        HistItem.txid) ∧
    cli_sync_zonefile envC8d "foo.test" none =
      ⟨.ok [("error", .s "Unable to lookup txid that wrote zonefile")],
       false, none⟩ :=
  ⟨C8_sync_zonefile_txid.1 envC8a "foo.test" "zfqueue" "txqueue" rfl,
   C8_sync_zonefile_txid.2.1 envC8b "foo.test" "zz" [("zonefile", .s "zz")]
      ⟨"+", some "hash:zz", "txrec", []⟩ rfl rfl rfl rfl rfl rfl rfl,
   C8_sync_zonefile_txid.2.2.1 envC8c "foo.test" "zz" [("zonefile", .s "zz")]
      ⟨">", none, "txother", [(5, ⟨some "+", some "hash:zz", some "txhist"⟩)]⟩
      rfl rfl rfl rfl rfl (by decide),
   C8_sync_zonefile_txid.2.2.2 envC8d "foo.test" "zz" [("zonefile", .s "zz")]
      ⟨">", none, "txother", []⟩ rfl rfl rfl rfl rfl rfl⟩

end Blockstack
